import Mathlib

/-!
Shallow embedding of `src/main.py` (eps-packages-scrapping-api).

The module scrapes a logistics portal: a config loader (`get_config`), a
session with a cookie-based liveness check (`is_logged_in`, `login`), a
one-slot page cache (`CACHE`), an orchestrator (`get_packages`), an HTML
row extractor (`transform_package`) and three HTTP routes.

Modelling conventions:
* Python strings/DOM text are `String`; a bs4 node's relevant observations
  are collected in `SoupNode` (`soup['data-groups']` is `none` when the
  attribute is missing; `soup.find(class_=c)` is `none` when absent, else
  the list of `contents` of the found element).
* A `requests` response is `Page`; its `nodes` field abstracts
  `BeautifulSoup(r.text).select('#fTrackingPaquetes [data-groups]')`.
* `CACHE['home']` holds either the falsy `''` (modelled `none`) or a
  truthy response object (`some page`).
* Timestamps (`datetime.now().timestamp()`) are rationals.
* Raising an exception is `Except.error`; Python `{}` returned by
  `transform_package` after a caught exception is `none`.
-/

namespace EpsApi

/-- Observations of one bs4 DOM node used by `transform_package`. -/
structure SoupNode where
  dataGroups : Option String
  packagecondition : Option (List String)
  trackingnumber : Option (List String)
  packagecontent : Option (List String)
  packagesender : Option (List String)
  packageweight : Option (List String)
deriving DecidableEq, Repr

/-- The output record of `transform_package` (all 8 fields strings). -/
structure PackageRecord where
  condition : String
  trackingNumber : String
  content : String
  sender : String
  weight : String
  status : String
  statusLabel : String
  statusFormatted : String
deriving DecidableEq, Repr

/-- Association-list lookup, modelling Python `dict.get` /
`ConfigParser` option lookup (first matching key wins). -/
def optGet : List (String × String) → String → Option String
  | [], _ => none
  | (k, v) :: rest, key => if k = key then some v else optGet rest key

/-- The fixed status table of `transform_package` (`status_mapper`). -/
def status_mapper : List (String × String) :=
  [("status1", "origin"),
   ("status2", "air line / ship"),
   ("status3", "customs"),
   ("status4", "distribution center"),
   ("status6", "transit"),
   ("status5", "available"),
   ("status7", "availableV2")]

/-- `get_first` from `transform_package`: first element or `''`. -/
def get_first : List String → String
  | [] => ""
  | a :: _ => a

/-- Tokenizer behind `pySplit`: walk the characters, accumulating the
current token (reversed); whitespace ends a token, and empty tokens are
never produced. -/
def pyTokens : List Char → List Char → List String
  | [], [] => []
  | [], acc => [String.mk acc.reverse]
  | ch :: rest, acc =>
    if ch.isWhitespace then
      match acc with
      | [] => pyTokens rest []
      | _ => String.mk acc.reverse :: pyTokens rest []
    else pyTokens rest (ch :: acc)

/-- Python `str.split()` with no argument: split on whitespace runs,
dropping empty tokens. -/
def pySplit (s : String) : List String :=
  pyTokens s.toList []

/-- `transform_package`: parse one eps html item into a structure.
`none` models the `{}` returned from the `except` branch (missing
`data-groups` key, a `data-groups` that does not unpack into exactly 3
tokens, or a missing descendant making `.contents` raise). -/
def transform_package (soup : SoupNode) : Option PackageRecord :=
  match soup.dataGroups with
  | none => none
  | some groups =>
    match pySplit groups with
    | [_, status, status_label] =>
      match soup.packagecondition, soup.trackingnumber, soup.packagecontent,
            soup.packagesender, soup.packageweight with
      | some condition, some tracking_number, some content, some sender, some weight =>
        some { condition := get_first condition
               trackingNumber := get_first tracking_number
               content := get_first content
               sender := get_first sender
               weight := get_first weight
               status := status
               statusLabel := status_label
               statusFormatted := (optGet status_mapper status).getD "na" }
      | _, _, _, _, _ => none
    | _ => none

/-! ## Config loader (`get_config`) -/

/-- A parsed ini file: sections, each with its options
(`ConfigParser` keeps sections unique). -/
abbrev ConfigData := List (String × List (String × String))

/-- Python exceptions that can escape `get_config`. -/
inductive PyErr where
  | keyError
  | valueError
deriving DecidableEq, Repr

/-- `config.get(section, option)` result before error translation:
`none` models `NoSectionError` / `NoOptionError`. -/
def cfgGet : ConfigData → String → String → Option String
  | [], _, _ => none
  | (s, opts) :: rest, sec, opt =>
    if s = sec then optGet opts opt else cfgGet rest sec opt

/-- `config[sec][opt] = v` after `config[sec]` succeeded: prepend the
option into the (existing) section. -/
def cfgSet : ConfigData → String → String → String → ConfigData
  | [], _, _, _ => []
  | (s, opts) :: rest, sec, opt, v =>
    if s = sec then (s, (opt, v) :: opts) :: rest
    else (s, opts) :: cfgSet rest sec opt v

/-- Separator splitter behind `pySplitOn`: Python `str.split(sep)` for a
single-character separator (empty pieces are kept, `''.split(sep)`
is `['']`). -/
def pySepSplit (sep : Char) : List Char → List Char → List String
  | [], acc => [String.mk acc.reverse]
  | ch :: rest, acc =>
    if ch = sep then String.mk acc.reverse :: pySepSplit sep rest []
    else pySepSplit sep rest (ch :: acc)

/-- Python `str.split(sep)` with an explicit one-character separator. -/
def pySplitOn (s : String) (sep : Char) : List String :=
  pySepSplit sep s.toList []

/-- `config.has_section` / the guard of `config[sec].__getitem__`. -/
def cfgHasSection : ConfigData → String → Bool
  | [], _ => false
  | (s, _) :: rest, sec => s = sec || cfgHasSection rest sec

/-- The inner `config_get` closure of `get_config`: split the dotted key
(`ValueError` when it does not unpack into exactly two parts), then
`config.get` with `NoOptionError`/`NoSectionError` mapped to the default. -/
def config_get (cfg : ConfigData) (section_option : String) (default : String) :
    Except PyErr String :=
  match pySplitOn section_option '.' with
  | [sec, opt] =>
    match cfgGet cfg sec opt with
    | some v => Except.ok v
    | none => Except.ok default
  | _ => Except.error PyErr.valueError

/-- `get_config(_section_config, _default)` over an already-read config
file `cfg`. Mirrors the body: the two unconditional writes
`config['user']['name'] = config_get('user.name')` and
`config['user']['password'] = config_get('user.password')`
(where `config['user']` raises `KeyError` when the section is absent),
then either a lookup (`.inr`) or the config object itself (`.inl`). -/
def get_config (cfg : ConfigData) (sectionConfig : String) (default : String) :
    Except PyErr (ConfigData ⊕ String) :=
  match config_get cfg "user.name" "" with
  | Except.error e => Except.error e
  | Except.ok n =>
    if cfgHasSection cfg "user" = false then Except.error PyErr.keyError
    else
      let cfg1 := cfgSet cfg "user" "name" n
      match config_get cfg1 "user.password" "" with
      | Except.error e => Except.error e
      | Except.ok p =>
        if cfgHasSection cfg1 "user" = false then Except.error PyErr.keyError
        else
          let cfg2 := cfgSet cfg1 "user" "password" p
          if sectionConfig ≠ "" then
            match config_get cfg2 sectionConfig default with
            | Except.error e => Except.error e
            | Except.ok v => Except.ok (Sum.inr v)
          else Except.ok (Sum.inl cfg2)

/-! ## Session, cache, orchestrator (`get_packages`) and routes -/

/-- A `requests` response: `nodes` abstracts
`BeautifulSoup(r.text, 'html.parser').select('#fTrackingPaquetes [data-groups]')`. -/
structure Page where
  nodes : List SoupNode
deriving DecidableEq, Repr

/-- Process-wide mutable state: the session cookie jar observation
(`'WebSite_autologin' in session.cookies`) and the two `CACHE` slots
(`none` models the falsy `''` in `CACHE['home']`). -/
structure ProgState where
  cookieAutologin : Bool
  cacheHome : Option Page
  cacheLastUpdate : ℚ
deriving DecidableEq, Repr

/-- What the outside world supplies during one `get_packages` call:
`datetime.now().timestamp()`, `float(get_config('server.cache', 30))`,
the cookie-jar state after the login POST, and the dashboard response
`session.get(URLS['home'])` would return. -/
structure GPEnv where
  now : ℚ
  serverCache : ℚ
  afterLogin : Bool
  fetched : Page
deriving DecidableEq, Repr

/-- A response dictionary: `logged_in = none` models the key being
absent; an element `none` of `items` models an empty record `{}`. -/
structure GPResponse where
  items : List (Option PackageRecord)
  logged_in : Option Bool
deriving DecidableEq, Repr

/-- `INITIAL_STATE = {'items': []}` (no `logged_in` key). -/
def INITIAL_STATE : GPResponse :=
  { items := [], logged_in := none }

/-- Result of one `get_packages` call: the returned value, the program
state afterwards, and how many login+fetch round trips were performed. -/
structure GPOut where
  res : GPResponse
  st : ProgState
  fetches : Nat
deriving DecidableEq, Repr

/-- `is_logged_in()`: `'WebSite_autologin' in session.cookies.get_dict()`. -/
def is_logged_in (s : ProgState) : Bool :=
  s.cookieAutologin

/-- `login()`: `session.post(URLS['login'], data=payload)`; the cookie jar
afterwards is whatever the portal's response set. -/
def login (env : GPEnv) (s : ProgState) : ProgState :=
  { s with cookieAutologin := env.afterLogin }

/-- `get_packages(use_cache=True)`, line by line: elapsed minutes since
`CACHE['last_update']`; when they exceed `server.cache` reset the
timestamp and mark `clear`; when `clear and use_cache` empty
`CACHE['home']`; then `if CACHE['home'] and use_cache` reuse the cached
response, else `login()` and fetch fresh, storing response and timestamp;
finally the not-logged-in guard returning `INITIAL_STATE`, or the parsed
item list with `logged_in` recomputed. -/
def get_packages (env : GPEnv) (s0 : ProgState) (use_cache : Bool) : GPOut :=
  let epoch := env.now
  let server_cache := env.serverCache
  let epoch_difference := |s0.cacheLastUpdate - epoch|
  let epoch_difference_to_minutes := epoch_difference / 60
  let stale : Bool := decide (epoch_difference_to_minutes > server_cache)
  let s1 := if stale then { s0 with cacheLastUpdate := epoch } else s0
  let s2 := if stale && use_cache then { s1 with cacheHome := none } else s1
  let fetchFresh : Page × ProgState × Nat :=
    let sL := login env s2
    (env.fetched, { sL with cacheHome := some env.fetched, cacheLastUpdate := epoch }, 1)
  let step :=
    match s2.cacheHome, use_cache with
    | some page, true => (page, s2, 0)
    | _, _ => fetchFresh
  let eps_home := step.1
  let s3 := step.2.1
  let fetches := step.2.2
  if is_logged_in s3 = false then
    { res := INITIAL_STATE, st := s3, fetches := fetches }
  else
    { res := { items := eps_home.nodes.map transform_package
               logged_in := some (is_logged_in s3) }
      st := s3
      fetches := fetches }

/-- Route `GET /`: `get_packages()` with the default `use_cache=True`. -/
def packages (env : GPEnv) (s : ProgState) : GPOut :=
  get_packages env s true

/-- Route `GET /now`: `get_packages(use_cache=False)`. -/
def now (env : GPEnv) (s : ProgState) : GPOut :=
  get_packages env s false

/-- Route `GET /clear`: `CACHE['home'] = ''; return 'OK'`. -/
def clear (s : ProgState) : String × ProgState :=
  ("OK", { s with cacheHome := none })

/-- Proof-side abbreviation: the common tail of `get_packages` (the
not-logged-in guard followed by the response construction), applied to
the page in hand, the post-fetch-phase state and the fetch count. -/
def mkOut (page : Page) (st : ProgState) (f : Nat) : GPOut :=
  if is_logged_in st = false then
    { res := INITIAL_STATE, st := st, fetches := f }
  else
    { res := { items := page.nodes.map transform_package
               logged_in := some (is_logged_in st) }
      st := st
      fetches := f }

/-! ## Helper lemmas -/

lemma mkOut_st (page : Page) (st : ProgState) (f : Nat) : (mkOut page st f).st = st := by
  unfold mkOut; split <;> rfl

lemma mkOut_fetches (page : Page) (st : ProgState) (f : Nat) :
    (mkOut page st f).fetches = f := by
  unfold mkOut; split <;> rfl

lemma mkOut_res_of_not_logged (page : Page) (st : ProgState) (f : Nat)
    (h : st.cookieAutologin = false) : (mkOut page st f).res = INITIAL_STATE := by
  simp [mkOut, is_logged_in, h]

lemma mkOut_res_of_logged (page : Page) (st : ProgState) (f : Nat)
    (h : st.cookieAutologin = true) :
    (mkOut page st f).res =
      { items := page.nodes.map transform_package, logged_in := some true } := by
  simp [mkOut, is_logged_in, h]

lemma mkOut_items_map (page : Page) (st : ProgState) (f : Nat) :
    ∃ ns : List SoupNode, (mkOut page st f).res.items = ns.map transform_package := by
  unfold mkOut
  split
  · exact ⟨[], rfl⟩
  · exact ⟨page.nodes, rfl⟩

lemma mkOut_logged_in_some (page : Page) (st : ProgState) (f : Nat) (b : Bool)
    (h : (mkOut page st f).res.logged_in = some b) : b = true := by
  unfold mkOut at h
  split at h
  · simp [INITIAL_STATE] at h
  · next hcond =>
    have h2 : is_logged_in st = b := by simpa using h
    have hb : is_logged_in st = true := by
      cases hbb : is_logged_in st
      · exact absurd hbb hcond
      · rfl
    rw [← h2, hb]

/-- Closed form of `get_packages`: after resolving the staleness test, the
cache-emptying step and the branch between cached and fresh page, the call
is `mkOut` of the chosen page, the resulting state and the fetch count. -/
lemma get_packages_eq (env : GPEnv) (s0 : ProgState) (u : Bool) :
    get_packages env s0 u =
      (match (if decide (|s0.cacheLastUpdate - env.now| / 60 > env.serverCache) && u
              then none else s0.cacheHome), u with
       | some page, true =>
         mkOut page
           { cookieAutologin := s0.cookieAutologin
             cacheHome := some page
             cacheLastUpdate :=
               if decide (|s0.cacheLastUpdate - env.now| / 60 > env.serverCache)
               then env.now else s0.cacheLastUpdate }
           0
       | _, _ =>
         mkOut env.fetched
           { cookieAutologin := env.afterLogin
             cacheHome := some env.fetched
             cacheLastUpdate := env.now }
           1) := by
  obtain ⟨sc, sh, sl⟩ := s0
  cases u
  all_goals by_cases hp : |sl - env.now| / 60 > env.serverCache
  all_goals first
    | (have hst : decide (|sl - env.now| / 60 > env.serverCache) = true :=
         decide_eq_true hp
       unfold get_packages
       simp only [hst]
       cases sh <;> simp [mkOut, login, is_logged_in])
    | (have hst : decide (|sl - env.now| / 60 > env.serverCache) = false :=
         decide_eq_false hp
       unfold get_packages
       simp only [hst]
       cases sh <;> simp [mkOut, login, is_logged_in])

/-- Every `get_packages` call is `mkOut` of some page, state and count. -/
lemma get_packages_shape (env : GPEnv) (s0 : ProgState) (u : Bool) :
    ∃ (page : Page) (st : ProgState) (f : Nat),
      get_packages env s0 u = mkOut page st f := by
  rw [get_packages_eq]
  cases hch : (if decide (|s0.cacheLastUpdate - env.now| / 60 > env.serverCache) && u
               then none else s0.cacheHome) <;> cases u
  · exact ⟨_, _, _, rfl⟩
  · exact ⟨_, _, _, rfl⟩
  · exact ⟨_, _, _, rfl⟩
  · exact ⟨_, _, _, rfl⟩

/-- With `use_cache=False` the fetch branch is taken unconditionally. -/
lemma get_packages_false_eq (env : GPEnv) (s0 : ProgState) :
    get_packages env s0 false =
      mkOut env.fetched
        { cookieAutologin := env.afterLogin
          cacheHome := some env.fetched
          cacheLastUpdate := env.now }
        1 := by
  rw [get_packages_eq]
  cases hch : (if decide (|s0.cacheLastUpdate - env.now| / 60 > env.serverCache) && false
               then none else s0.cacheHome) <;> rfl

/-- With `use_cache=True` and a stale timestamp the cache is emptied and
the fetch branch is taken. -/
lemma get_packages_stale_eq (env : GPEnv) (s0 : ProgState)
    (h : |s0.cacheLastUpdate - env.now| / 60 > env.serverCache) :
    get_packages env s0 true =
      mkOut env.fetched
        { cookieAutologin := env.afterLogin
          cacheHome := some env.fetched
          cacheLastUpdate := env.now }
        1 := by
  rw [get_packages_eq]
  have hst : decide (|s0.cacheLastUpdate - env.now| / 60 > env.serverCache) = true :=
    decide_eq_true h
  simp [hst]

/-- With `use_cache=True`, a cached page and a fresh timestamp the cached
page is reused and nothing is fetched. -/
lemma get_packages_cache_hit_eq (env : GPEnv) (s0 : ProgState) (page : Page)
    (hch : s0.cacheHome = some page)
    (h : ¬ |s0.cacheLastUpdate - env.now| / 60 > env.serverCache) :
    get_packages env s0 true =
      mkOut page
        { cookieAutologin := s0.cookieAutologin
          cacheHome := some page
          cacheLastUpdate := s0.cacheLastUpdate }
        0 := by
  rw [get_packages_eq]
  have hst : decide (|s0.cacheLastUpdate - env.now| / 60 > env.serverCache) = false :=
    decide_eq_false h
  simp [hst, hch]

lemma cfgHasSection_cfgSet (cfg : ConfigData) (sec opt v sec' : String) :
    cfgHasSection (cfgSet cfg sec opt v) sec' = cfgHasSection cfg sec' := by
  induction cfg with
  | nil => rfl
  | cons hd rest ih =>
    obtain ⟨s, opts⟩ := hd
    by_cases hs : s = sec <;> simp [cfgSet, cfgHasSection, hs, ih]

lemma cfgGet_cfgSet_same (cfg : ConfigData) (sec opt v : String)
    (h : cfgHasSection cfg sec = true) :
    cfgGet (cfgSet cfg sec opt v) sec opt = some v := by
  induction cfg with
  | nil => simp [cfgHasSection] at h
  | cons hd rest ih =>
    obtain ⟨s, opts⟩ := hd
    by_cases hs : s = sec
    · simp [cfgSet, cfgGet, hs, optGet]
    · have h' : cfgHasSection rest sec = true := by
        simpa [cfgHasSection, hs] using h
      simp [cfgSet, cfgGet, hs, ih h']

lemma cfgGet_cfgSet_ne (cfg : ConfigData) (sec opt v sec' opt' : String)
    (h : sec' ≠ sec ∨ opt' ≠ opt) :
    cfgGet (cfgSet cfg sec opt v) sec' opt' = cfgGet cfg sec' opt' := by
  induction cfg with
  | nil => rfl
  | cons hd rest ih =>
    obtain ⟨s, opts⟩ := hd
    by_cases hs : s = sec
    · subst hs
      by_cases hs' : s = sec'
      · rcases h with h | h
        · exact absurd (hs'.symm) h
        · simp [cfgSet, cfgGet, hs', optGet, Ne.symm h]
      · simp [cfgSet, cfgGet, hs']
    · by_cases hs' : s = sec'
      · subst hs'
        simp [cfgSet, cfgGet, hs]
      · simp [cfgSet, cfgGet, hs, hs', ih]

lemma config_get_ok (cfg : ConfigData) (sc sec opt d : String)
    (hsp : pySplitOn sc '.' = [sec, opt]) :
    config_get cfg sc d = Except.ok ((cfgGet cfg sec opt).getD d) := by
  unfold config_get
  rw [hsp]
  cases hg : cfgGet cfg sec opt <;> simp [hg]

/-- With `use_cache=True` and an empty cache slot the fetch branch is
taken whatever the staleness test says. -/
lemma get_packages_cache_empty_eq (env : GPEnv) (s0 : ProgState)
    (hch : s0.cacheHome = none) :
    get_packages env s0 true =
      mkOut env.fetched
        { cookieAutologin := env.afterLogin
          cacheHome := some env.fetched
          cacheLastUpdate := env.now }
        1 := by
  rw [get_packages_eq]
  by_cases hp : |s0.cacheLastUpdate - env.now| / 60 > env.serverCache
  · simp [decide_eq_true hp, hch]
  · simp [decide_eq_false hp, hch]

/-- Any failing extraction step of `transform_package` yields `none`
(the caught-exception `{}`). -/
lemma transform_package_none_of_fail (soup : SoupNode)
    (h : soup.dataGroups = none ∨
         (∃ g, soup.dataGroups = some g ∧ (pySplit g).length ≠ 3) ∨
         soup.packagecondition = none ∨ soup.trackingnumber = none ∨
         soup.packagecontent = none ∨ soup.packagesender = none ∨
         soup.packageweight = none) :
    transform_package soup = none := by
  rcases h with h | ⟨g, hg, hlen⟩ | h | h | h | h | h
  · simp [transform_package, h]
  · simp only [transform_package, hg]
    split
    · rename_i x status label heq
      exact absurd (by simp [heq]) hlen
    · rfl
  all_goals
    cases hdg : soup.dataGroups with
    | none => simp [transform_package, hdg]
    | some g =>
      simp only [transform_package, hdg]
      split
      · split
        · simp_all
        · rfl
      · rfl

/-! ## Claims -/

/-- Claim C1: for a node whose `data-groups` splits into exactly 3
whitespace-separated tokens and whose five descendant classes are all
present with at least one child, `transform_package` returns a record
with all 8 fields populated, `status` the second token, `statusLabel` the
third, and `statusFormatted` the fixed 7-entry table value for the status
code (`status5` mapping to `available`), or `na` for a code outside the
table. -/
theorem transform_package_full_row (soup : SoupNode) (g t1 t2 t3 c tn ct se w : String)
    (cs tns cts ses ws : List String)
    (hg : soup.dataGroups = some g)
    (hsplit : pySplit g = [t1, t2, t3])
    (hc : soup.packagecondition = some (c :: cs))
    (ht : soup.trackingnumber = some (tn :: tns))
    (hct : soup.packagecontent = some (ct :: cts))
    (hse : soup.packagesender = some (se :: ses))
    (hw : soup.packageweight = some (w :: ws)) :
    transform_package soup =
      some { condition := c, trackingNumber := tn, content := ct, sender := se,
             weight := w, status := t2, statusLabel := t3,
             statusFormatted := (optGet status_mapper t2).getD "na" }
    ∧ (optGet status_mapper "status5").getD "na" = "available"
    ∧ ∀ code : String, code ∉ status_mapper.map Prod.fst →
        (optGet status_mapper code).getD "na" = "na" := by
  refine ⟨?_, rfl, ?_⟩
  · simp [transform_package, hg, hsplit, hc, ht, hct, hse, hw, get_first]
  · intro code hcode
    simp [status_mapper] at hcode
    obtain ⟨h1, h2, h3, h4, h6, h5, h7⟩ := hcode
    simp [optGet, status_mapper, Ne.symm h1, Ne.symm h2, Ne.symm h3, Ne.symm h4,
          Ne.symm h6, Ne.symm h5, Ne.symm h7]

/-- Witness for C1 at a concrete scraped row. -/
theorem transform_package_full_row_witness :
    transform_package
      ⟨some "sizer status5 DISPONIBLE", some ["Good"], some ["TR123"],
       some ["Stuff"], some ["Amazon"], some ["2 lbs"]⟩ =
      some ⟨"Good", "TR123", "Stuff", "Amazon", "2 lbs",
            "status5", "DISPONIBLE", "available"⟩ := by
  have h := transform_package_full_row
    ⟨some "sizer status5 DISPONIBLE", some ["Good"], some ["TR123"],
     some ["Stuff"], some ["Amazon"], some ["2 lbs"]⟩
    "sizer status5 DISPONIBLE" "sizer" "status5" "DISPONIBLE"
    "Good" "TR123" "Stuff" "Amazon" "2 lbs" [] [] [] [] []
    rfl rfl rfl rfl rfl rfl rfl
  simpa using h.1

/-- Claim C2: `transform_package` never raises: a missing `data-groups`,
a `data-groups` that does not split into exactly 3 tokens, or any missing
required descendant yields the empty record `{}` (`none`); and
`get_packages` maps `transform_package` over the selected nodes without
filtering, so such nodes surface as empty objects in `items`. -/
theorem transform_package_swallow :
    (∀ soup : SoupNode,
      (soup.dataGroups = none ∨
       (∃ g, soup.dataGroups = some g ∧ (pySplit g).length ≠ 3) ∨
       soup.packagecondition = none ∨ soup.trackingnumber = none ∨
       soup.packagecontent = none ∨ soup.packagesender = none ∨
       soup.packageweight = none) →
      transform_package soup = none)
    ∧ ∀ (env : GPEnv) (s : ProgState) (u : Bool),
        ∃ ns : List SoupNode,
          (get_packages env s u).res.items = ns.map transform_package := by
  constructor
  · exact transform_package_none_of_fail
  · intro env s u
    obtain ⟨page, st, f, he⟩ := get_packages_shape env s u
    rw [he]
    exact mkOut_items_map page st f

/-- Witness for C2: a node with `data-groups` absent maps to `{}`, and a
concrete `get_packages` run produces an items list that is a map of
`transform_package`. -/
theorem transform_package_swallow_witness :
    transform_package ⟨none, some ["a"], some ["b"], some ["c"], some ["d"], some ["e"]⟩ = none
    ∧ ∃ ns : List SoupNode,
        (get_packages ⟨0, 30, true, ⟨[]⟩⟩ ⟨false, none, 0⟩ true).res.items =
          ns.map transform_package :=
  ⟨transform_package_swallow.1 _ (Or.inl rfl),
   transform_package_swallow.2 ⟨0, 30, true, ⟨[]⟩⟩ ⟨false, none, 0⟩ true⟩

/-- Claim C3: whenever the cookie check fails after the cache/fetch
phase, `get_packages` returns the empty initial state `{items: []}` with
no `logged_in` key, for either `use_cache` value and regardless of any
fetch performed during the call. -/
theorem get_packages_initial_when_not_logged_in (env : GPEnv) (s : ProgState) (u : Bool)
    (h : is_logged_in (get_packages env s u).st = false) :
    (get_packages env s u).res = INITIAL_STATE ∧
    (get_packages env s u).res.items = [] ∧
    (get_packages env s u).res.logged_in = none := by
  obtain ⟨page, st, f, he⟩ := get_packages_shape env s u
  rw [he] at h ⊢
  rw [mkOut_st] at h
  have h' : st.cookieAutologin = false := h
  have hres := mkOut_res_of_not_logged page st f h'
  exact ⟨hres, by rw [hres]; rfl, by rw [hres]; rfl⟩

/-- Witness for C3: a run whose login fails (no autologin cookie) returns
the bare initial state even though a page was fetched. -/
theorem get_packages_initial_when_not_logged_in_witness :
    (get_packages ⟨0, 30, false, ⟨[]⟩⟩ ⟨false, none, 0⟩ true).res = INITIAL_STATE ∧
    (get_packages ⟨0, 30, false, ⟨[]⟩⟩ ⟨false, none, 0⟩ true).res.items = [] ∧
    (get_packages ⟨0, 30, false, ⟨[]⟩⟩ ⟨false, none, 0⟩ true).res.logged_in = none :=
  get_packages_initial_when_not_logged_in ⟨0, 30, false, ⟨[]⟩⟩ ⟨false, none, 0⟩ true
    (by rw [get_packages_cache_empty_eq _ _ rfl, mkOut_st]; rfl)

/-- Claim C4: starting from an empty cache slot, a `use_cache=True` call
followed by a second `use_cache=True` call within the cache window
performs exactly one upstream login/fetch in total: the first call
fetches once, the second takes the cache branch (zero fetches), keeps the
first call's page cached, and (when the login had succeeded) serves its
items from that very page. -/
theorem get_packages_single_fetch_within_window (env1 env2 : GPEnv) (s0 : ProgState)
    (h0 : s0.cacheHome = none)
    (hw : |env1.now - env2.now| / 60 ≤ env2.serverCache) :
    (get_packages env1 s0 true).fetches = 1 ∧
    (get_packages env2 (get_packages env1 s0 true).st true).fetches = 0 ∧
    (get_packages env2 (get_packages env1 s0 true).st true).st.cacheHome = some env1.fetched ∧
    (env1.afterLogin = true →
      (get_packages env2 (get_packages env1 s0 true).st true).res =
        { items := env1.fetched.nodes.map transform_package, logged_in := some true }) := by
  have h1 := get_packages_cache_empty_eq env1 s0 h0
  rw [h1, mkOut_st, mkOut_fetches]
  have hnl : ¬ |(ProgState.mk env1.afterLogin (some env1.fetched) env1.now).cacheLastUpdate -
      env2.now| / 60 > env2.serverCache := by
    simpa using not_lt.mpr hw
  have h2 := get_packages_cache_hit_eq env2
    (ProgState.mk env1.afterLogin (some env1.fetched) env1.now) env1.fetched rfl hnl
  rw [h2, mkOut_fetches, mkOut_st]
  refine ⟨rfl, rfl, rfl, fun hlog => ?_⟩
  exact mkOut_res_of_logged env1.fetched _ 0 hlog

/-- Witness for C4 at concrete times 100 and 200 seconds with a 30 minute
window. -/
theorem get_packages_single_fetch_within_window_witness :
    (get_packages ⟨100, 30, true, ⟨[]⟩⟩ ⟨false, none, 0⟩ true).fetches = 1 ∧
    (get_packages ⟨200, 30, true, ⟨[]⟩⟩
      (get_packages ⟨100, 30, true, ⟨[]⟩⟩ ⟨false, none, 0⟩ true).st true).fetches = 0 ∧
    (get_packages ⟨200, 30, true, ⟨[]⟩⟩
      (get_packages ⟨100, 30, true, ⟨[]⟩⟩ ⟨false, none, 0⟩ true).st true).st.cacheHome =
      some ⟨[]⟩ := by
  have h := get_packages_single_fetch_within_window ⟨100, 30, true, ⟨[]⟩⟩ ⟨200, 30, true, ⟨[]⟩⟩
    ⟨false, none, 0⟩ rfl (by norm_num)
  exact ⟨h.1, h.2.1, h.2.2.1⟩

/-- Claim C5: a `use_cache=True` call made once the elapsed minutes
exceed the configured window performs a fresh login and fetch, stores the
fetched page in the cache and updates `last_update` to the current
timestamp. -/
theorem get_packages_refetch_after_window (env : GPEnv) (s : ProgState)
    (h : |s.cacheLastUpdate - env.now| / 60 > env.serverCache) :
    (get_packages env s true).fetches = 1 ∧
    (get_packages env s true).st.cacheHome = some env.fetched ∧
    (get_packages env s true).st.cacheLastUpdate = env.now ∧
    (get_packages env s true).st.cookieAutologin = env.afterLogin := by
  rw [get_packages_stale_eq env s h, mkOut_fetches, mkOut_st]
  exact ⟨rfl, rfl, rfl, rfl⟩

/-- Witness for C5: a cache last updated at epoch 0 queried at epoch
10000 (≈167 minutes) with a 30 minute window is refetched. -/
theorem get_packages_refetch_after_window_witness :
    (get_packages ⟨10000, 30, true, ⟨[]⟩⟩ ⟨true, some ⟨[]⟩, 0⟩ true).fetches = 1 ∧
    (get_packages ⟨10000, 30, true, ⟨[]⟩⟩ ⟨true, some ⟨[]⟩, 0⟩ true).st.cacheLastUpdate =
      10000 := by
  have h := get_packages_refetch_after_window ⟨10000, 30, true, ⟨[]⟩⟩ ⟨true, some ⟨[]⟩, 0⟩
    (by norm_num)
  exact ⟨h.1, h.2.2.1⟩

/-- Claim C7: `get_packages(use_cache=False)` — the `/now` route — takes
the fetch branch regardless of cache state: it performs `login()`,
fetches the dashboard fresh, and unconditionally overwrites both
`CACHE['home']` (with the fetched page) and `CACHE['last_update']` (with
the current timestamp). -/
theorem get_packages_no_cache_always_fetches (env : GPEnv) (s : ProgState) :
    now env s = get_packages env s false ∧
    (get_packages env s false).fetches = 1 ∧
    (get_packages env s false).st.cacheHome = some env.fetched ∧
    (get_packages env s false).st.cacheLastUpdate = env.now ∧
    (get_packages env s false).st.cookieAutologin = env.afterLogin := by
  refine ⟨rfl, ?_⟩
  rw [get_packages_false_eq, mkOut_fetches, mkOut_st]
  exact ⟨rfl, rfl, rfl, rfl⟩

/-- Claim C8: the `/clear` route empties `CACHE['home']`, leaves the
timestamp and the session cookie state untouched, and returns the
literal string `OK`. -/
theorem clear_route_spec (s : ProgState) :
    (clear s).1 = "OK" ∧
    (clear s).2.cacheHome = none ∧
    (clear s).2.cacheLastUpdate = s.cacheLastUpdate ∧
    (clear s).2.cookieAutologin = s.cookieAutologin :=
  ⟨rfl, rfl, rfl, rfl⟩

/-- Claim C9: whenever a `get_packages` response carries the `logged_in`
key, its value is `True`: the non-empty shape is only built after the
`is_logged_in()` guard passed and nothing mutates the cookies in
between, so a `logged_in: false` response is never produced. -/
theorem get_packages_logged_in_never_false (env : GPEnv) (s : ProgState) (u b : Bool)
    (h : (get_packages env s u).res.logged_in = some b) : b = true := by
  obtain ⟨page, st, f, he⟩ := get_packages_shape env s u
  rw [he] at h
  exact mkOut_logged_in_some page st f b h

/-- Witness for C9: a concrete logged-in run returns `logged_in = some
true`, and the theorem applies to it. -/
theorem get_packages_logged_in_never_false_witness :
    (get_packages ⟨0, 30, true, ⟨[]⟩⟩ ⟨false, none, 0⟩ true).res.logged_in = some true ∧
    true = true :=
  have hkey : (get_packages ⟨0, 30, true, ⟨[]⟩⟩ ⟨false, none, 0⟩ true).res.logged_in =
      some true := by
    rw [get_packages_cache_empty_eq _ _ rfl, mkOut_res_of_logged _ _ _ rfl]
  ⟨hkey, get_packages_logged_in_never_false ⟨0, 30, true, ⟨[]⟩⟩ ⟨false, none, 0⟩ true true hkey⟩

/-- Claim C10: the value returned by `get_packages(use_cache=False)` does
not depend on the prior cache contents: two runs from any two cache
states, observing the same upstream login result and fetched page,
return the same value (the cached page is never read on this path). -/
theorem get_packages_no_cache_cache_oblivious (env : GPEnv) (s1 s2 : ProgState) :
    (get_packages env s1 false).res = (get_packages env s2 false).res := by
  rw [get_packages_false_eq, get_packages_false_eq]

/-- Counterexample to C6 as stated: with a config file that lacks a
`[user]` section (here it only has `[server]`), looking up `user.name`
with a supplied default raises `KeyError` (from the unconditional
`config['user']['name'] = ...` write) instead of returning the default. -/
theorem get_config_missing_user_section_raises :
    get_config [("server", [("cache", "5")])] "user.name" "fallback" =
      Except.error PyErr.keyError := by
  rfl

/-- Claim C6 (amended): provided the config file has a `[user]` section,
`get_config` never raises for a well-formed `section.option` lookup whose
key or section is absent: it returns the supplied default — except for
`user.name` and `user.password`, which the loader pre-writes as `''`, so
an absent option there yields the empty string regardless of the
supplied default. -/
theorem get_config_absent_key_returns_default (cfg : ConfigData) (sc sec opt d : String)
    (hsp : pySplitOn sc '.' = [sec, opt])
    (hu : cfgHasSection cfg "user" = true)
    (habs : cfgGet cfg sec opt = none) :
    get_config cfg sc d =
      Except.ok (Sum.inr
        (if sec = "user" ∧ (opt = "name" ∨ opt = "password") then "" else d)) := by
  have hne : sc ≠ "" := by
    intro h0
    rw [h0] at hsp
    have hlen : (pySplitOn "" '.').length = 2 := by
      rw [hsp]
      rfl
    exact absurd hlen (by decide)
  have hu1 : cfgHasSection (cfgSet cfg "user" "name" ((cfgGet cfg "user" "name").getD ""))
      "user" = true := by
    rw [cfgHasSection_cfgSet]
    exact hu
  unfold get_config
  rw [config_get_ok cfg "user.name" "user" "name" "" rfl]
  simp only [hu, hu1, Bool.true_eq_false, if_false, reduceCtorEq]
  rw [config_get_ok _ "user.password" "user" "password" "" rfl]
  simp only [hu1, Bool.true_eq_false, if_false, reduceCtorEq]
  rw [if_pos hne]
  rw [config_get_ok _ sc sec opt d hsp]
  by_cases hsec : sec = "user"
  · subst hsec
    by_cases hname : opt = "name"
    · subst hname
      rw [cfgGet_cfgSet_ne _ _ _ _ _ _ (Or.inr (by decide)),
          cfgGet_cfgSet_same cfg "user" "name" _ hu, habs]
      simp
    · by_cases hpass : opt = "password"
      · subst hpass
        rw [cfgGet_cfgSet_same _ "user" "password" _ hu1,
            cfgGet_cfgSet_ne _ _ _ _ _ _ (Or.inr (by decide)), habs]
        simp
      · rw [cfgGet_cfgSet_ne _ _ _ _ _ _ (Or.inr hpass),
            cfgGet_cfgSet_ne _ _ _ _ _ _ (Or.inr hname), habs]
        simp [hname, hpass]
  · rw [cfgGet_cfgSet_ne _ _ _ _ _ _ (Or.inl hsec),
        cfgGet_cfgSet_ne _ _ _ _ _ _ (Or.inl hsec), habs]
    simp [hsec]

/-- Witness for the amended C6: a config with an empty `[user]` section
and no `[server]` section returns the supplied default `30` for
`server.cache`, and the empty string for the pre-written `user.name`
despite the supplied default. -/
theorem get_config_absent_key_returns_default_witness :
    get_config [("user", [])] "server.cache" "30" = Except.ok (Sum.inr "30") ∧
    get_config [("user", [])] "user.name" "XX" = Except.ok (Sum.inr "") := by
  constructor
  · have h := get_config_absent_key_returns_default [("user", [])] "server.cache"
      "server" "cache" "30" rfl rfl rfl
    simpa using h
  · have h := get_config_absent_key_returns_default [("user", [])] "user.name"
      "user" "name" "XX" rfl rfl rfl
    simpa using h

end EpsApi
